import Mathlib

/-!
Verification of the OCR host web server (`app.py`).

The program is a single-file Flask application: it locates one image file in
the working directory, runs OCR on it through the external PaddleOCR library,
normalizes the library's heterogeneous result shapes, caches the normalized
result in an on-disk JSON file keyed by absolute path and modification time,
and serves four HTTP routes.

The embedding below models Python values as the inductive `PyVal` (JSON-like
data plus tuples), Python exceptions as `PyErr`, the cache file on disk as
`Disk`, and the external OCR engine as oracle fields of an `Env` record.
Python floats are modelled as exact rationals (`Rat`); `int(...)` applied to a
float truncates toward zero, as in Python.  Stateful functions return, besides
their value, the resulting disk, the OCR-engine state and a trace of events
(`Ev`): cache reads/writes, lock acquisitions/releases, engine construction
and engine invocations.
-/

/-- Python runtime values as they occur in this program: JSON values plus
tuples.  Dictionaries keep insertion order, as Python dicts do. -/
inductive PyVal where
  | none
  | bool (b : Bool)
  | int (n : Int)
  | float (q : Rat)
  | str (s : String)
  | list (xs : List PyVal)
  | tuple (xs : List PyVal)
  | dict (kvs : List (String × PyVal))

/-- Python exception values, by class, carrying the message `str(e)`. -/
inductive PyErr where
  | typeError (msg : String)
  | valueError (msg : String)
  | attributeError (msg : String)
  | indexError (msg : String)
  | keyError (msg : String)
  | runtimeError (msg : String)
deriving DecidableEq

/-- Python `str(e)` on an exception: its message. -/
def pyErrStr : PyErr → String
  | .typeError m | .valueError m | .attributeError m
  | .indexError m | .keyError m | .runtimeError m => m

/-- Python truthiness (`bool(v)`): `None`, `False`, zero, and empty
strings/sequences/dicts are falsy. -/
def pyTruthy : PyVal → Bool
  | .none => false
  | .bool b => b
  | .int n => decide (n ≠ 0)
  | .float q => decide (q ≠ 0)
  | .str s => decide (s ≠ "")
  | .list xs => !xs.isEmpty
  | .tuple xs => !xs.isEmpty
  | .dict kvs => !kvs.isEmpty

/-- Iterating a Python value (`for x in v`): lists and tuples yield their
elements, strings their one-character substrings, dicts their keys; other
values raise `TypeError`. -/
def pyIter : PyVal → Except PyErr (List PyVal)
  | .list xs => .ok xs
  | .tuple xs => .ok xs
  | .str s => .ok (s.data.map (fun c => .str c.toString))
  | .dict kvs => .ok (kvs.map (fun p => .str p.1))
  | _ => .error (.typeError "object is not iterable")

/-- Indexing with a small integer (`v[i]`): lists, tuples and strings index
positionally (raising `IndexError` out of range), dicts raise `KeyError` for an
integer key (this program's dicts have string keys only), other values raise
`TypeError`. -/
def pyIndex (v : PyVal) (i : Nat) : Except PyErr PyVal :=
  match v with
  | .list xs | .tuple xs =>
      match xs.get? i with
      | Option.some x => .ok x
      | Option.none => .error (.indexError "index out of range")
  | .str s =>
      match s.data.get? i with
      | Option.some c => .ok (.str c.toString)
      | Option.none => .error (.indexError "string index out of range")
  | .dict _ => .error (.keyError "integer key")
  | _ => .error (.typeError "object is not subscriptable")

/-- Python `isinstance(v, (float, int))`.  Note that Python `bool` is a
subclass of `int`, so booleans pass this test. -/
def pyIsNum : PyVal → Bool
  | .int _ | .float _ | .bool _ => true
  | _ => false

/-- Numeric value of an `int`/`float`/`bool`, as used by `float(v)` on values
passing `pyIsNum`. -/
def pyNumToRat : PyVal → Rat
  | .int n => (n : Rat)
  | .float q => q
  | .bool b => if b then 1 else 0
  | _ => 0

/-- Digits-to-number helper for the decimal-literal parser. -/
def natOfDigits (cs : List Char) : Nat :=
  cs.foldl (fun a c => a * 10 + (c.toNat - 48)) 0

/-- Model of Python `float(s)` on a string: an optional sign followed by a
plain decimal literal (`"12"`, `"3.5"`, `"5."`, `".5"`).  Exponent forms,
`inf`/`nan` and surrounding whitespace, which cannot occur in this program's
data of interest, are not modelled and are treated as unparsable. -/
def parseFloatLit (s : String) : Option Rat :=
  let cs := s.data
  let signed : Bool × List Char :=
    match cs with
    | '-' :: r => (true, r)
    | '+' :: r => (false, r)
    | r => (false, r)
  let neg := signed.1
  let body := signed.2
  let intPart := body.takeWhile (fun c => c.isDigit)
  let rest := body.dropWhile (fun c => c.isDigit)
  let mkVal : Rat → Option Rat := fun q => Option.some (if neg then -q else q)
  match rest with
  | [] =>
      if intPart.isEmpty then Option.none
      else mkVal (natOfDigits intPart : Rat)
  | '.' :: frac =>
      if frac.all (fun c => c.isDigit) && (!intPart.isEmpty || !frac.isEmpty) then
        mkVal ((natOfDigits intPart : Rat) + (natOfDigits frac : Rat) / ((10 : Rat) ^ frac.length))
      else Option.none
  | _ => Option.none

/-- Python `float(v)`: numbers convert directly (booleans count as numbers),
strings are parsed as decimal literals (`ValueError` on failure), every other
value raises `TypeError`. -/
def pyFloat (v : PyVal) : Except PyErr Rat :=
  match v with
  | .int _ | .float _ | .bool _ => .ok (pyNumToRat v)
  | .str s =>
      match parseFloatLit s with
      | Option.some q => .ok q
      | Option.none => .error (.valueError "could not convert string to float")
  | _ => .error (.typeError "argument must be a string or a number")

/-- Python `int(q)` on a float: truncation toward zero. -/
def pyTruncToInt (q : Rat) : Int :=
  if 0 ≤ q then q.floor else q.ceil

mutual

/-- Model of Python `str(v)`.  Faithful on the scalar values this program
stringifies; sequence and dict renderings are a simple recursive display (the
program only ever uses them as opaque text). -/
def pyStr : PyVal → String
  | .none => "None"
  | .bool b => if b then "True" else "False"
  | .int n => toString n
  | .float q => toString q
  | .str s => s
  | .list xs => "[" ++ pyStrSeq xs ++ "]"
  | .tuple xs => "(" ++ pyStrSeq xs ++ ")"
  | .dict kvs => "\x7bdict of " ++ toString kvs.length ++ " entries\x7d"

/-- Comma-separated rendering of a sequence, for `pyStr`. -/
def pyStrSeq : List PyVal → String
  | [] => ""
  | [x] => pyStr x
  | x :: y :: xs => pyStr x ++ ", " ++ pyStrSeq (y :: xs)

end

/-! ## parse_paddle (app.py lines 115-140) -/

/-- One point of a box: `[int(float(p[0])), int(float(p[1]))]`, evaluated in
Python's left-to-right order; any indexing or conversion error propagates. -/
def parseBoxPoint (p : PyVal) : Except PyErr PyVal :=
  match pyIndex p 0 with
  | Except.error e => Except.error e
  | Except.ok x0 =>
    match pyFloat x0 with
    | Except.error e => Except.error e
    | Except.ok f0 =>
      match pyIndex p 1 with
      | Except.error e => Except.error e
      | Except.ok x1 =>
        match pyFloat x1 with
        | Except.error e => Except.error e
        | Except.ok f1 =>
            Except.ok (.list [.int (pyTruncToInt f0), .int (pyTruncToInt f1)])

/-- Pointwise conversion of the box comprehension's iterations, left to right;
the first error aborts. -/
def parsePoints : List PyVal → Except PyErr (List PyVal)
  | [] => Except.ok []
  | p :: ps =>
      match parseBoxPoint p with
      | Except.error e => Except.error e
      | Except.ok v =>
          match parsePoints ps with
          | Except.error e => Except.error e
          | Except.ok vs => Except.ok (v :: vs)

/-- The box comprehension `[[int(float(p[0])), int(float(p[1]))] for p in box]`:
iterates `box` (raising `TypeError` when it is not iterable) and converts each
point. -/
def parseBox (box : PyVal) : Except PyErr (List PyVal) :=
  match pyIter box with
  | Except.error e => Except.error e
  | Except.ok ps => parsePoints ps

/-- The `text`/`score` extraction from `text_part` (app.py lines 128-138):
for a list or tuple, `text` is the first element (stringified when not a
string) and `score` is `float` of the second element when that second element
is numeric; a bare string is the text itself; any other value is stringified.
This part of the loop body cannot raise. -/
def textAndScore (tp : PyVal) : String × Option Rat :=
  match tp with
  | .list xs | .tuple xs =>
      let text :=
        match xs.head? with
        | Option.some (.str s) => s
        | Option.some v => pyStr v
        | Option.none => ""
      let score :=
        match xs.get? 1 with
        | Option.some v => if pyIsNum v then Option.some (pyNumToRat v) else Option.none
        | Option.none => Option.none
      (text, score)
  | .str s => (s, Option.none)
  | v => (pyStr v, Option.none)

/-- The record appended for one detection: keys `text`, `score`, `box` in that
order, `score` being `None` when absent. -/
def mkRecord (text : String) (score : Option Rat) (pts : List PyVal) : PyVal :=
  .dict [("text", .str text),
         ("score", match score with | Option.some q => .float q | Option.none => .none),
         ("box", .list pts)]

/-- One iteration of the `for det in res` loop: `det[0]`/`det[1]` are fetched
under `try`, any exception there skips the detection (`continue`, modelled as
`ok Option.none`); an exception from the box comprehension propagates. -/
def parseDet (det : PyVal) : Except PyErr (Option PyVal) :=
  match pyIndex det 0, pyIndex det 1 with
  | Except.ok box, Except.ok tp =>
      let ts := textAndScore tp
      match parseBox box with
      | Except.ok pts => Except.ok (Option.some (mkRecord ts.1 ts.2 pts))
      | Except.error e => Except.error e
  | _, _ => Except.ok Option.none

/-- The whole `for det in res` loop, accumulating the surviving records in
order; the first propagating exception aborts the loop. -/
def parseDets : List PyVal → Except PyErr (List PyVal)
  | [] => Except.ok []
  | d :: rest =>
      match parseDet d with
      | Except.error e => Except.error e
      | Except.ok r =>
          match parseDets rest with
          | Except.error e => Except.error e
          | Except.ok rs =>
              Except.ok (match r with
                         | Option.some x => x :: rs
                         | Option.none => rs)

/-- The unwrap step: `if isinstance(res, list) and len(res) == 1 and
isinstance(res[0], list): res = res[0]`. -/
def unwrapOuter (res : PyVal) : PyVal :=
  match res with
  | .list [PyVal.list ys] => .list ys
  | v => v

/-- Model of `parse_paddle` (app.py lines 115-140): a falsy result yields the
empty list; a one-element outer list whose element is itself a list is
unwrapped; then the detection loop runs, raising `TypeError` when `res` is not
iterable and propagating any error from a box comprehension. -/
def parse_paddle (res : PyVal) : Except PyErr PyVal :=
  if pyTruthy res = false then Except.ok (.list [])
  else
    match pyIter (unwrapOuter res) with
    | Except.error e => Except.error e
    | Except.ok dets =>
        match parseDets dets with
        | Except.error e => Except.error e
        | Except.ok out => Except.ok (.list out)

/-! ## Shape predicates for the normalizer's output -/

/-- A well-formed box point: a list of exactly two integers. -/
def boxPointOk : PyVal → Bool
  | .list [PyVal.int _, PyVal.int _] => true
  | _ => false

/-- A well-formed score field: `None` or a float. -/
def scoreFieldOk : PyVal → Bool
  | .none => true
  | .float _ => true
  | _ => false

/-- A well-formed normalized record: a dict with exactly the keys `text`,
`score`, `box` in that order, `text` a string, `score` `None` or a float,
`box` a list of two-element integer pairs. -/
def recordOk : PyVal → Bool
  | .dict [("text", PyVal.str _), ("score", sc), ("box", PyVal.list bx)] =>
      scoreFieldOk sc && bx.all boxPointOk
  | _ => false

/-- A well-formed normalizer result: a list of well-formed records. -/
def recordsOk : PyVal → Bool
  | .list rs => rs.all recordOk
  | _ => false

/-- Modelled from the spec words of the score clause: the text part is a
list/tuple whose second element is numeric. -/
def spec_secondNumeric : PyVal → Bool
  | .list xs | .tuple xs =>
      match xs.get? 1 with
      | Option.some v => pyIsNum v
      | Option.none => false
  | _ => false

lemma parseBoxPoint_ok {p v : PyVal} (h : parseBoxPoint p = Except.ok v) :
    boxPointOk v = true := by
  unfold parseBoxPoint at h
  cases h0 : pyIndex p 0 with
  | error e => simp [h0] at h
  | ok x0 =>
  cases hf0 : pyFloat x0 with
  | error e => simp [h0, hf0] at h
  | ok f0 =>
  cases h1 : pyIndex p 1 with
  | error e => simp [h0, hf0, h1] at h
  | ok x1 =>
  cases hf1 : pyFloat x1 with
  | error e => simp [h0, hf0, h1, hf1] at h
  | ok f1 =>
      simp [h0, hf0, h1, hf1] at h
      subst h
      rfl

lemma parsePoints_ok : ∀ {ps vs : List PyVal}, parsePoints ps = Except.ok vs →
    vs.all boxPointOk = true := by
  intro ps
  induction ps with
  | nil =>
      intro vs h
      unfold parsePoints at h
      injection h with h
      subst h
      rfl
  | cons p ps ih =>
      intro vs h
      unfold parsePoints at h
      cases h1 : parseBoxPoint p with
      | error e => simp [h1] at h
      | ok v =>
      cases h2 : parsePoints ps with
      | error e => simp [h1, h2] at h
      | ok vs2 =>
          simp [h1, h2] at h
          subst h
          simp [List.all_cons, parseBoxPoint_ok h1, ih h2]

lemma parseBox_ok {box : PyVal} {vs : List PyVal}
    (h : parseBox box = Except.ok vs) : vs.all boxPointOk = true := by
  unfold parseBox at h
  cases h1 : pyIter box with
  | error e => simp [h1] at h
  | ok ps =>
      rw [h1] at h
      exact parsePoints_ok h

lemma mkRecord_ok (t : String) (sc : Option Rat) {pts : List PyVal}
    (h : pts.all boxPointOk = true) : recordOk (mkRecord t sc pts) = true := by
  cases sc <;> simp [mkRecord, recordOk, scoreFieldOk, h]

lemma parseDet_ok {d x : PyVal} (h : parseDet d = Except.ok (Option.some x)) :
    recordOk x = true := by
  unfold parseDet at h
  cases h0 : pyIndex d 0 with
  | error e => simp [h0] at h
  | ok box =>
  cases h1 : pyIndex d 1 with
  | error e => simp [h0, h1] at h
  | ok tp =>
      cases h2 : parseBox box with
      | error e => simp [h0, h1, h2] at h
      | ok pts =>
          simp [h0, h1, h2] at h
          subst h
          exact mkRecord_ok _ _ (parseBox_ok h2)

lemma parseDets_ok : ∀ {ds out : List PyVal}, parseDets ds = Except.ok out →
    out.all recordOk = true := by
  intro ds
  induction ds with
  | nil =>
      intro out h
      unfold parseDets at h
      injection h with h
      subst h
      rfl
  | cons d ds ih =>
      intro out h
      unfold parseDets at h
      cases h1 : parseDet d with
      | error e => simp [h1] at h
      | ok r =>
      cases h2 : parseDets ds with
      | error e => simp [h1, h2] at h
      | ok rs =>
          simp [h1, h2] at h
          subst h
          cases r with
          | none => exact ih h2
          | some x => simp [List.all_cons, parseDet_ok h1, ih h2]

/-- C2 (amended): whenever `parse_paddle` returns normally, its result is a
list of records, each a dict with exactly the keys `text`, `score`, `box` in
that order, `text` a string, `score` a float or `None`, and `box` a list of
two-element integer coordinate pairs; a falsy input yields the empty list; a
result wrapped in a one-element outer list (whose element is a list) is
unwrapped before processing; and the score is a float exactly when the text
part is a list/tuple whose second element is numeric. -/
theorem parse_paddle_c2 (res : PyVal) :
    (∀ v, parse_paddle res = Except.ok v → recordsOk v = true) ∧
    (pyTruthy res = false → parse_paddle res = Except.ok (PyVal.list [])) ∧
    (∀ ys, parse_paddle (PyVal.list [PyVal.list ys]) =
      Except.map PyVal.list (parseDets ys)) ∧
    (∀ tp, ((textAndScore tp).2).isSome = spec_secondNumeric tp) := by
  refine ⟨?_, ?_, ?_, ?_⟩
  · intro v h
    unfold parse_paddle at h
    cases ht : pyTruthy res with
    | false =>
        simp [ht] at h
        subst h
        rfl
    | true =>
        simp only [ht] at h
        cases h1 : pyIter (unwrapOuter res) with
        | error e => simp [h1] at h
        | ok dets =>
            cases h2 : parseDets dets with
            | error e => simp [h1, h2] at h
            | ok out =>
                simp [h1, h2] at h
                subst h
                simpa [recordsOk] using parseDets_ok h2
  · intro h
    simp [parse_paddle, h]
  · intro ys
    have ht : pyTruthy (PyVal.list [PyVal.list ys]) = true := by
      simp [pyTruthy]
    simp only [parse_paddle, ht]
    simp only [unwrapOuter, pyIter]
    cases h : parseDets ys <;> simp [Except.map, h]
  · intro tp
    cases tp with
    | list xs =>
        simp only [textAndScore, spec_secondNumeric]
        cases h : xs.get? 1 with
        | none => simp [h]
        | some v => cases hn : pyIsNum v <;> simp [h, hn]
    | tuple xs =>
        simp only [textAndScore, spec_secondNumeric]
        cases h : xs.get? 1 with
        | none => simp [h]
        | some v => cases hn : pyIsNum v <;> simp [h, hn]
    | str s => rfl
    | none => rfl
    | bool b => rfl
    | int n => rfl
    | float q => rfl
    | dict kvs => rfl

/-- C2 counterexample: the claim quantifies over every input, but
`parse_paddle` raises `TypeError` on the truthy non-iterable input `5`
(`for det in res` over an integer raises), so it does not return a list of
records for every input. -/
theorem parse_paddle_c2_counterexample :
    parse_paddle (PyVal.int 5) =
      Except.error (PyErr.typeError "object is not iterable") := rfl

/-- Concrete PaddleOCR-shaped result used to witness the C2 theorem. -/
def c2res : PyVal :=
  PyVal.list [PyVal.list [PyVal.list
    [PyVal.list [PyVal.list [PyVal.int 1, PyVal.int 2],
                 PyVal.list [PyVal.int 3, PyVal.int 4]],
     PyVal.tuple [PyVal.str "hi", PyVal.int 5]]]]

/-- Witness for the C2 theorem at a concrete nested result. -/
theorem parse_paddle_c2_witness :
    recordsOk (PyVal.list [mkRecord "hi" (Option.some 5)
      [PyVal.list [PyVal.int 1, PyVal.int 2],
       PyVal.list [PyVal.int 3, PyVal.int 4]]]) = true :=
  (parse_paddle_c2 c2res).1 _ rfl

/-! ## find_image (app.py lines 47-51) -/

/-- The accepted image extensions (app.py line 28). -/
def IMAGE_EXTS : List String := [".png", ".jpg", ".jpeg", ".bmp", ".tiff", ".webp"]

/-- The filter `f.lower().endswith(IMAGE_EXTS)`: the lowercased name ends with
one of the extensions. -/
def hasImageExt (f : String) : Bool :=
  IMAGE_EXTS.any (fun e => f.toLower.endsWith e)

/-- The working directory as seen by `find_image`: the entries `os.listdir`
returns, the `os.path.isfile` predicate, and the current directory used by
`os.path.abspath`. -/
structure Dir where
  entries : List String
  isFile : String → Bool
  cwd : String

/-- Model of `os.path.abspath` on a bare directory entry. -/
def abspath (d : Dir) (f : String) : String := d.cwd ++ "/" ++ f

/-- Model of `find_image` (app.py lines 47-51): iterate
`sorted(os.listdir(os.getcwd()))` and return the absolute path of the first
entry that has an image extension (case-insensitively) and is a regular file;
`None` when there is none.  Python `sorted` is a stable sort for the
lexicographic string order; that order is linear, so every sorted permutation
of the entries is the same list and the sort is modelled by insertion sort. -/
def find_image (d : Dir) : Option String :=
  ((d.entries.insertionSort (· ≤ ·)).find?
      (fun f => hasImageExt f && d.isFile f)).map (abspath d)

/-- Modelled from the spec words of the image-finder claim: the absolute path
of the lexicographically first regular file whose lowercased name ends with
one of the image extensions. -/
def spec_find_image (d : Dir) : Option String :=
  (((d.entries.filter (fun f => hasImageExt f && d.isFile f)).insertionSort
      (· ≤ ·)).head?).map (abspath d)

lemma find?_eq_head?_filter {α : Type} (p : α → Bool) :
    ∀ L : List α, L.find? p = (L.filter p).head? := by
  intro L
  induction L with
  | nil => rfl
  | cons x L ih =>
      cases hx : p x with
      | true =>
          rw [List.find?_cons, List.filter_cons, hx]
          rfl
      | false =>
          rw [List.find?_cons, List.filter_cons, hx, ih]
          rfl

lemma sort_filter_comm (p : String → Bool) (L : List String) :
    (L.insertionSort (· ≤ ·)).filter p = (L.filter p).insertionSort (· ≤ ·) := by
  apply List.eq_of_perm_of_sorted (r := (· ≤ · : String → String → Prop))
  · exact ((List.perm_insertionSort _ L).filter p).trans
      (List.perm_insertionSort _ (L.filter p)).symm
  · exact (List.sorted_insertionSort _ L).filter p
  · exact List.sorted_insertionSort _ _

/-- C3: `find_image` returns exactly the absolute path of the
lexicographically first regular file whose lowercased name has one of the six
image extensions, and `None` precisely when no directory entry qualifies. -/
theorem find_image_c3 (d : Dir) :
    find_image d = spec_find_image d ∧
    (find_image d = Option.none ↔
      d.entries.all (fun f => !(hasImageExt f && d.isFile f)) = true) := by
  constructor
  · unfold find_image spec_find_image
    rw [find?_eq_head?_filter, sort_filter_comm]
  · unfold find_image
    simp only [Option.map_eq_none', List.find?_eq_none, List.mem_insertionSort,
      List.all_eq_true, Bool.and_eq_true, not_and, Bool.not_eq_true]
    constructor
    · intro hmain x hx
      by_cases hi : hasImageExt x = true
      · simp [hi, hmain x hx hi]
      · simp [Bool.not_eq_true] at hi
        simp [hi]
    · intro hmain x hx hi
      have := hmain x hx
      rw [hi] at this
      simpa using this

/-! ## open_and_downscale (app.py lines 73-81) -/

/-- Default `OCR_MAX_DIM` (app.py line 29). -/
def MAX_DIM : Nat := 1024

/-- Model of `open_and_downscale` (app.py lines 73-81) on an image of size
`w × h`: when the larger side exceeds `max_dim`, both sides are scaled by
`scale = max_dim / max_side` and truncated (`int(w * scale)`), in one single
`resize` call; otherwise the image keeps its size and no resize happens.
Python float arithmetic is modelled as exact rational arithmetic; for the
nonnegative operands here the truncation `int(w * (max_dim / max_side))` is
the rational floor, i.e. `Nat` division `w * max_dim / max_side`.  The result
is the final size paired with the number of `resize` calls performed. -/
def open_and_downscale (w h : Nat) (max_dim : Nat) : (Nat × Nat) × Nat :=
  let max_side := max w h
  if max_dim < max_side then
    ((w * max_dim / max_side, h * max_dim / max_side), 1)
  else ((w, h), 0)

/-- C6: `open_and_downscale` performs at most one resize; when the larger side
exceeds `max_dim` both dimensions are multiplied by `max_dim / max(w, h)` and
truncated, making the resized larger side at most `max_dim`; otherwise the
dimensions are unchanged and no resize happens. -/
theorem open_and_downscale_c6 (w h max_dim : Nat) :
    (open_and_downscale w h max_dim).2 ≤ 1 ∧
    (max_dim < max w h →
      open_and_downscale w h max_dim =
        ((w * max_dim / max w h, h * max_dim / max w h), 1) ∧
      max (open_and_downscale w h max_dim).1.1
          (open_and_downscale w h max_dim).1.2 ≤ max_dim) ∧
    (max w h ≤ max_dim → open_and_downscale w h max_dim = ((w, h), 0)) := by
  by_cases hc : max_dim < max w h
  · have hpos : 0 < max w h := Nat.lt_of_le_of_lt (Nat.zero_le max_dim) hc
    have hb : ∀ a : Nat, a ≤ max w h → a * max_dim / max w h ≤ max_dim := by
      intro a ha
      calc a * max_dim / max w h
          ≤ max w h * max_dim / max w h :=
            Nat.div_le_div_right (Nat.mul_le_mul_right _ ha)
        _ = max_dim := Nat.mul_div_cancel_left _ hpos
    refine ⟨?_, fun _ => ⟨?_, ?_⟩, fun hle => absurd hc (by omega)⟩
    · simp [open_and_downscale, hc]
    · simp [open_and_downscale, hc]
    · simp only [open_and_downscale, if_pos hc]
      exact max_le (hb w (le_max_left w h)) (hb h (le_max_right w h))
  · refine ⟨?_, fun hlt => absurd hlt hc, fun _ => ?_⟩ <;>
      simp [open_and_downscale, hc]

/-- Witness for the C6 theorem: a 2000 × 1000 image is resized once to
1024 × 512 under the default limit, an 800 × 600 one is untouched. -/
theorem open_and_downscale_c6_witness :
    open_and_downscale 2000 1000 1024 = ((1024, 512), 1) ∧
    open_and_downscale 800 600 1024 = ((800, 600), 0) :=
  ⟨((open_and_downscale_c6 2000 1000 1024).2.1 (by decide)).1,
   (open_and_downscale_c6 800 600 1024).2.2 (by decide)⟩

/-! ## The on-disk cache (app.py lines 57-70) -/

/-- State of the cache file `ocr_cache_cpu.json` on disk: missing, present but
unreadable, present but not valid JSON, or holding a parsed JSON value.  The
JSON text itself is abstracted: only the parsed value matters to the
program. -/
inductive Disk where
  | absent
  | unreadable
  | invalid
  | json (v : PyVal)

/-- Model of `load_cache` (app.py lines 59-64): parse the cache file, and on
any exception — missing file, unreadable file, invalid JSON — return the empty
dict. -/
def load_cache : Disk → PyVal
  | .json v => v
  | _ => .dict []

/-- Model of `save_cache` (app.py lines 65-70): write the dict as JSON; the
oracle `writeOk` says whether the write succeeds, and a failure is silently
swallowed (`except Exception: pass`), modelled as leaving the file as it
was. -/
def save_cache (d : PyVal) (disk : Disk) (writeOk : Bool) : Disk :=
  if writeOk then .json d else disk

/-- Lookup in an ordered association list, as Python dict lookup (keys are
unique in every dict this program builds). -/
def dictGet (kvs : List (String × PyVal)) (k : String) : Option PyVal :=
  (kvs.find? (fun p => p.1 == k)).map (fun p => p.2)

/-- Python `d[k] = v` on an insertion-ordered dict: overwrite in place when
the key exists, append otherwise. -/
def dictSet (kvs : List (String × PyVal)) (k : String) (v : PyVal) :
    List (String × PyVal) :=
  if kvs.any (fun p => p.1 == k) then
    kvs.map (fun p => if p.1 == k then (k, v) else p)
  else kvs ++ [(k, v)]

/-- Python `v.get(k)`: `None` for a missing key; a non-dict receiver raises
`AttributeError` (as `cache.get(...)`/`entry.get(...)` do when the JSON file
held something other than an object). -/
def pyGet (v : PyVal) (k : String) : Except PyErr PyVal :=
  match v with
  | .dict kvs => .ok ((dictGet kvs k).getD .none)
  | _ => .error (.attributeError "object has no attribute get")

/-- Python `v[k]` with a string key: `KeyError` for a missing key, `TypeError`
on a non-dict receiver. -/
def pyGetKey (v : PyVal) (k : String) : Except PyErr PyVal :=
  match v with
  | .dict kvs =>
      match dictGet kvs k with
      | Option.some x => .ok x
      | Option.none => .error (.keyError k)
  | _ => .error (.typeError "object is not subscriptable")

/-- Python `==` between a JSON-loaded value and the float `mtime`: numbers
(including booleans, which Python compares as 0/1) compare by value, every
other type compares unequal. -/
def pyEqFloat (v : PyVal) (q : Rat) : Bool :=
  match v with
  | .int n => decide ((n : Rat) = q)
  | .float x => decide (x = q)
  | .bool b => decide ((if b then (1 : Rat) else 0) = q)
  | _ => false

/-- The hit test `entry and entry.get("mtime") == mtime and "ocr" in entry`
(app.py lines 148 and 153): short-circuits on a falsy entry, raises
`AttributeError` on a truthy non-dict entry, otherwise compares the stored
mtime and checks for the `ocr` key. -/
def hitCheck (entry : PyVal) (mtime : Rat) : Except PyErr Bool :=
  if pyTruthy entry = false then .ok false
  else
    match pyGet entry "mtime" with
    | Except.error e => Except.error e
    | Except.ok m =>
        if pyEqFloat m mtime = false then .ok false
        else
          match entry with
          | .dict kvs => .ok (kvs.any (fun p => p.1 == "ocr"))
          | _ => .ok false

/-- The hit test and, on a hit, the `entry["ocr"]` access, for a given
`entry = cache.get(key)`. -/
def probeEntry (entry : PyVal) (mtime : Rat) : Except PyErr (Option PyVal) :=
  match hitCheck entry mtime with
  | Except.error e => Except.error e
  | Except.ok true =>
      match pyGetKey entry "ocr" with
      | Except.ok v => Except.ok (Option.some v)
      | Except.error e => Except.error e
  | Except.ok false => Except.ok Option.none

/-- One cache probe of `run_ocr_cached` on a loaded dict: `entry =
cache.get(key)` (`None` when absent), the hit test, and on a hit the value
`entry["ocr"]`.  Returns `some v` on a hit, `none` on a miss, or the
propagating exception. -/
def probeDict (kvs : List (String × PyVal)) (key : String) (mtime : Rat) :
    Except PyErr (Option PyVal) :=
  probeEntry ((dictGet kvs key).getD .none) mtime

/-! ## Engine state, events and environment -/

/-- Observable events of one request: cache file reads/writes, advisory lock
operations, construction of the PaddleOCR engine, and invocations of its
`ocr` method. -/
inductive Ev where
  | loadCache
  | saveCache
  | acquire (lock : String)
  | release (lock : String)
  | ocrInit
  | ocrRun
deriving DecidableEq

/-- The module-level advisory locks of app.py: `cache_lock` (line 58) and
`ocr_init_lock` (line 85). -/
def moduleLocks : List String := ["cache_lock", "ocr_init_lock"]

/-- The global `ocr_instance` (app.py line 84) plus a counter that numbers
engine constructions, so that distinct constructions are distinguishable. -/
structure OcrState where
  inst : Option Nat
  nextId : Nat
deriving DecidableEq

/-- The environment of one request: the served image (absolute path and
current mtime), the cache file, and oracles for everything the external world
decides — whether `paddle`/`paddleocr` import, what `ocr.ocr` returns when
called on the downscaled image (`ocrRawImg`) and, after a `TypeError`
fallback, on the path (`ocrRawPath`), whether `Image.open` raises
(`openErr`), the current time, and whether the cache write succeeds. -/
structure Env where
  imagePath : String
  mtime : Rat
  disk : Disk
  paddleOk : Bool
  paddleocrOk : Bool
  ocrRawImg : Except PyErr PyVal
  ocrRawPath : Except PyErr PyVal
  openErr : Option PyErr
  now : Rat
  writeOk : Bool

/-- Model of `get_ocr` (app.py lines 87-112): return the existing instance
when initialized; otherwise, under `ocr_init_lock`, re-check (a no-op in this
sequential model), import `paddle` (a failing `paddle.set_device` is ignored;
a failing import raises `RuntimeError`), import `paddleocr` (failure raises
`RuntimeError`), then construct the engine exactly once and publish it.  The
`str(e)` tail of each message is environment-specific and modelled as a fixed
string. -/
def get_ocr (env : Env) (s : OcrState) : Except PyErr Nat × OcrState × List Ev :=
  match s.inst with
  | Option.some i => (Except.ok i, s, [])
  | Option.none =>
      if env.paddleOk then
        if env.paddleocrOk then
          (Except.ok s.nextId, ⟨Option.some s.nextId, s.nextId + 1⟩,
           [Ev.acquire "ocr_init_lock", Ev.ocrInit, Ev.release "ocr_init_lock"])
        else
          (Except.error (PyErr.runtimeError "paddleocr not installed: import failed"),
           s, [Ev.acquire "ocr_init_lock", Ev.release "ocr_init_lock"])
      else
        (Except.error (PyErr.runtimeError
           "Paddle not installed. Install paddlepaddle CPU wheel first. Error: import failed"),
         s, [Ev.acquire "ocr_init_lock", Ev.release "ocr_init_lock"])

/-- The `ocr.ocr(img, cls=...)` call with its `TypeError` fallback to
`ocr.ocr(IMAGE_PATH, cls=...)` (app.py lines 157-160), paired with the engine
invocations it performs. -/
def attemptOcr (env : Env) : Except PyErr PyVal × List Ev :=
  match env.ocrRawImg with
  | Except.ok raw => (Except.ok raw, [Ev.ocrRun])
  | Except.error (PyErr.typeError _) => (env.ocrRawPath, [Ev.ocrRun, Ev.ocrRun])
  | Except.error e => (Except.error e, [Ev.ocrRun])

/-- The new cache entry `{"mtime": mtime, "ocr": parsed, "cached_at":
time.time()}` (app.py line 162). -/
def mkEntry (env : Env) (parsed : PyVal) : PyVal :=
  .dict [("mtime", .float env.mtime), ("ocr", parsed), ("cached_at", .float env.now)]

/-- Result of one `run_ocr_cached` call: the returned value or propagated
exception, the final cache file, the final engine state, and the event
trace. -/
structure RunResult where
  res : Except PyErr PyVal
  disk : Disk
  ocrSt : OcrState
  trace : List Ev

/-- The `with cache_lock:` block of `run_ocr_cached` (app.py lines 150-164),
entered after the unlocked probe missed (`kvs` is the loaded cache dict; the
second `load_cache` reads the same file and the re-check repeats
deterministically): on a still-miss, initialize the engine, open the image,
run OCR (with the `TypeError` fallback), normalize, store the entry under the
key and save, returning the normalized result; any exception propagates with
the lock released and nothing saved.  The trace includes the first, unlocked
`load_cache`. -/
def missPath (env : Env) (s : OcrState) (kvs : List (String × PyVal)) : RunResult :=
  let pre : List Ev := [Ev.loadCache, Ev.acquire "cache_lock", Ev.loadCache]
  match probeDict kvs env.imagePath env.mtime with
  | Except.error e => ⟨Except.error e, env.disk, s, pre ++ [Ev.release "cache_lock"]⟩
  | Except.ok (Option.some v) => ⟨Except.ok v, env.disk, s, pre ++ [Ev.release "cache_lock"]⟩
  | Except.ok Option.none =>
      match get_ocr env s with
      | (Except.error e, s1, g) =>
          ⟨Except.error e, env.disk, s1, pre ++ g ++ [Ev.release "cache_lock"]⟩
      | (Except.ok _, s1, g) =>
          match env.openErr with
          | Option.some e =>
              ⟨Except.error e, env.disk, s1, pre ++ g ++ [Ev.release "cache_lock"]⟩
          | Option.none =>
              match attemptOcr env with
              | (Except.error e, otr) =>
                  ⟨Except.error e, env.disk, s1, pre ++ g ++ otr ++ [Ev.release "cache_lock"]⟩
              | (Except.ok raw, otr) =>
                  match parse_paddle raw with
                  | Except.error e =>
                      ⟨Except.error e, env.disk, s1,
                       pre ++ g ++ otr ++ [Ev.release "cache_lock"]⟩
                  | Except.ok parsed =>
                      ⟨Except.ok parsed,
                       save_cache (PyVal.dict (dictSet kvs env.imagePath (mkEntry env parsed)))
                         env.disk env.writeOk,
                       s1,
                       pre ++ g ++ otr ++ [Ev.saveCache, Ev.release "cache_lock"]⟩

/-- Model of `run_ocr_cached` (app.py lines 143-164).  `IMAGE_PATH` is already
absolute, so `os.path.abspath(IMAGE_PATH)` is `env.imagePath` itself.  The
unlocked probe returns a fresh hit directly; a `cache.get` on a non-dict JSON
value raises `AttributeError`; otherwise the locked block runs. -/
def run_ocr_cached (env : Env) (s : OcrState) : RunResult :=
  match load_cache env.disk with
  | PyVal.dict kvs =>
      match probeDict kvs env.imagePath env.mtime with
      | Except.error e => ⟨Except.error e, env.disk, s, [Ev.loadCache]⟩
      | Except.ok (Option.some v) => ⟨Except.ok v, env.disk, s, [Ev.loadCache]⟩
      | Except.ok Option.none => missPath env s kvs
  | _ =>
      ⟨Except.error (PyErr.attributeError "object has no attribute get"),
       env.disk, s, [Ev.loadCache]⟩

/-! ## The HTTP layer (app.py lines 167-192) -/

/-- Bodies the four routes can produce: rendered HTML, JSON, the raw image
file, or plain error text. -/
inductive HttpBody where
  | html (s : String)
  | json (v : PyVal)
  | file (path : String) (mime : String)
  | text (s : String)

/-- An HTTP response: status code and body. -/
structure HttpResp where
  status : Nat
  body : HttpBody

/-- Model of `os.path.basename`. -/
def basename (p : String) : String :=
  (p.splitOn "/").getLastD ""

/-- Model of `mimetypes.guess_type` restricted to the extensions this server
can encounter, with the `application/octet-stream` fallback of the `/image`
route. -/
def guessMime (p : String) : String :=
  let low := p.toLower
  if low.endsWith ".png" then "image/png"
  else if low.endsWith ".jpg" || low.endsWith ".jpeg" then "image/jpeg"
  else if low.endsWith ".bmp" then "image/bmp"
  else if low.endsWith ".tiff" then "image/tiff"
  else if low.endsWith ".webp" then "image/webp"
  else "application/octet-stream"

/-- Jinja2 autoescaping of a value interpolated into the HTML template. -/
def htmlEscape (s : String) : String :=
  s.data.foldl (fun acc c =>
    acc ++ (if c = '&' then "&amp;"
            else if c = '<' then "&lt;"
            else if c = '>' then "&gt;"
            else if c = '"' then "&#34;"
            else if c.toNat = 39 then "&#39;"
            else c.toString)) ""

/-- The text of `HTML_TMPL` (app.py lines 34-42) rendered with `img_name` and
`text` substituted for the two placeholders, both autoescaped. -/
def renderIndex (imgName text : String) : String :=
  "<!doctype html><meta charset=\"utf-8\"><title>OCR - CPU</title>\n" ++
  "<style>body\x7bfont-family:system-ui;padding:18px\x7dimg\x7bmax-width:600px;height:auto;border:1px solid #ddd\x7d</style>\n" ++
  "<h1>OCR (CPU)</h1><p>Image: <b>" ++ htmlEscape imgName ++ "</b></p>\n" ++
  "<div style=\"display:flex;gap:20px;align-items:flex-start\">\n" ++
  "  <div><img src=\"/image\" alt=\"image\"><p><a href=\"/image\" download>Download</a></p></div>\n" ++
  "  <div><h3>Extracted text</h3><pre style=\"white-space:pre-wrap;background:#f7f7f7;padding:10px;border-radius:6px\">" ++
  htmlEscape text ++ "</pre>\n" ++
  "  <p><a href=\"/api/ocr\">JSON output</a></p></div>\n</div>\n"

/-- Python `v.get(k, default)` with a dict receiver, `AttributeError`
otherwise. -/
def pyGetDefault (v : PyVal) (k : String) (d : PyVal) : Except PyErr PyVal :=
  match v with
  | .dict kvs => .ok ((dictGet kvs k).getD d)
  | _ => .error (.attributeError "object has no attribute get")

/-- Python `"\n".join(...)` over a list of values: `TypeError` when an element
is not a string. -/
def strJoin (sep : String) : List PyVal → Except PyErr String
  | [] => Except.ok ""
  | [PyVal.str s] => Except.ok s
  | PyVal.str s :: y :: ys =>
      match strJoin sep (y :: ys) with
      | Except.error e => Except.error e
      | Except.ok t => Except.ok (s ++ sep ++ t)
  | _ => Except.error (.typeError "sequence item: expected str instance")

/-- A route handler: from the request environment and engine state to a
response together with the resulting cache file, engine state and event
trace. -/
abbrev Handler := Env → OcrState → HttpResp × Disk × OcrState × List Ev

/-- The `/` route (app.py lines 167-175): run the cached OCR, collect the
`text` fields, join the non-empty ones (or the placeholder), and render the
page; any exception yields a plain-text 500. -/
def index : Handler := fun env s =>
  let r := run_ocr_cached env s
  let bodyE : Except PyErr String :=
    match r.res with
    | Except.error e => Except.error e
    | Except.ok parsed =>
        match pyIter parsed with
        | Except.error e => Except.error e
        | Except.ok items =>
            match items.mapM (fun it => pyGetDefault it "text" (.str "")) with
            | Except.error e => Except.error e
            | Except.ok lines =>
                match strJoin "\n" (lines.filter pyTruthy) with
                | Except.error e => Except.error e
                | Except.ok joined =>
                    Except.ok (if joined = "" then "(no text found)" else joined)
  match bodyE with
  | Except.ok text =>
      (⟨200, HttpBody.html (renderIndex (basename env.imagePath) text)⟩,
       r.disk, r.ocrSt, r.trace)
  | Except.error e =>
      (⟨500, HttpBody.text ("Error running OCR: " ++ pyErrStr e)⟩,
       r.disk, r.ocrSt, r.trace)

/-- The `/image` route (app.py lines 177-180): serve the image file with the
guessed mime type. -/
def image : Handler := fun env s =>
  (⟨200, HttpBody.file env.imagePath (guessMime env.imagePath)⟩, env.disk, s, [])

/-- The `/api/ocr` route (app.py lines 182-188): the cached OCR wrapped in
`{"image": ..., "ocr": ...}`, or `{"error": str(e)}` with status 500. -/
def api_ocr : Handler := fun env s =>
  let r := run_ocr_cached env s
  match r.res with
  | Except.ok parsed =>
      (⟨200, HttpBody.json (PyVal.dict
         [("image", PyVal.str (basename env.imagePath)), ("ocr", parsed)])⟩,
       r.disk, r.ocrSt, r.trace)
  | Except.error e =>
      (⟨500, HttpBody.json (PyVal.dict [("error", PyVal.str (pyErrStr e))])⟩,
       r.disk, r.ocrSt, r.trace)

/-- The `/health` route (app.py lines 190-192). -/
def health : Handler := fun env s =>
  (⟨200, HttpBody.json (PyVal.dict
     [("ok", PyVal.bool true), ("image", PyVal.str (basename env.imagePath))])⟩,
   env.disk, s, [])

/-- The route table registered on the Flask app (app.py lines 167-192): the
four `@app.route` decorators in source order. -/
def appRoutes : List (String × Handler) :=
  [("/", index), ("/image", image), ("/api/ocr", api_ocr), ("/health", health)]

/-! ## C4: lazy singleton initialization -/

/-- C4: `get_ocr` lazily initializes a singleton: a successful call leaves the
constructed instance published in the global state, and any subsequent call —
whatever its environment — returns that identical instance, with no events (in
particular no second construction); a call that already finds an instance
returns it unchanged. -/
theorem get_ocr_c4 (env env2 : Env) (s : OcrState) :
    (∀ i s1 tr, get_ocr env s = (Except.ok i, s1, tr) →
      s1.inst = Option.some i ∧ get_ocr env2 s1 = (Except.ok i, s1, []) ∧
      Ev.ocrInit ∉ (get_ocr env2 s1).2.2) ∧
    (∀ i, s.inst = Option.some i → get_ocr env s = (Except.ok i, s, [])) := by
  constructor
  · intro i s1 tr h
    unfold get_ocr at h
    cases hs : s.inst with
    | some j =>
        simp only [hs, Prod.mk.injEq, Except.ok.injEq] at h
        obtain ⟨h1, h2, h3⟩ := h
        subst h1 h2
        exact ⟨hs, by simp [get_ocr, hs], by simp [get_ocr, hs]⟩
    | none =>
        simp only [hs] at h
        cases hp : env.paddleOk with
        | false => simp [hp, Prod.mk.injEq] at h
        | true =>
        cases hq : env.paddleocrOk with
        | false => simp [hp, hq, Prod.mk.injEq] at h
        | true =>
            simp only [hp, hq, if_true, Prod.mk.injEq, Except.ok.injEq] at h
            obtain ⟨h1, h2, h3⟩ := h
            subst h1 h2
            exact ⟨rfl, by simp [get_ocr], by simp [get_ocr]⟩
  · intro i hi
    simp [get_ocr, hi]

/-- Request environment with both imports available, an empty-cache disk and a
trivially succeeding OCR oracle, used as a concrete instantiation point. -/
def envReady : Env :=
  { imagePath := "/work/a.png", mtime := 5, disk := Disk.absent,
    paddleOk := true, paddleocrOk := true,
    ocrRawImg := Except.ok (PyVal.list []), ocrRawPath := Except.ok PyVal.none,
    openErr := Option.none, now := 9, writeOk := true }

/-- The fresh engine state before any initialization. -/
def s0 : OcrState := ⟨Option.none, 0⟩

/-- Witness for the C4 theorem: after the first successful initialization the
state holds instance 0 and a second call returns the identical instance with
no construction. -/
theorem get_ocr_c4_witness :
    OcrState.inst ⟨Option.some 0, 1⟩ = Option.some 0 ∧
    get_ocr envReady ⟨Option.some 0, 1⟩ = (Except.ok 0, ⟨Option.some 0, 1⟩, []) ∧
    Ev.ocrInit ∉ (get_ocr envReady ⟨Option.some 0, 1⟩).2.2 :=
  (get_ocr_c4 envReady envReady s0).1 0 ⟨Option.some 0, 1⟩
    [Ev.acquire "ocr_init_lock", Ev.ocrInit, Ev.release "ocr_init_lock"] rfl

/-! ## C5: the route table -/

/-- C5: the HTTP layer exposes exactly four routes: the HTML page at `/`, the
raw image at `/image`, the JSON API at `/api/ocr` and the health check at
`/health`, pairwise distinct. -/
theorem appRoutes_c5 :
    appRoutes.map Prod.fst = ["/", "/image", "/api/ocr", "/health"] ∧
    appRoutes.length = 4 ∧ (appRoutes.map Prod.fst).Nodup := by
  have h : appRoutes.map Prod.fst = ["/", "/image", "/api/ocr", "/health"] := rfl
  refine ⟨h, rfl, ?_⟩
  rw [h]
  decide

/-! ## C10: the health route -/

/-- C10: `GET /health` always responds 200 with exactly the JSON body
`{"ok": true, "image": basename}`, leaves the cache file and engine state
untouched, and performs no OCR run, no engine construction, no cache read and
no cache write. -/
theorem health_c10 (env : Env) (s : OcrState) :
    health env s =
      (⟨200, HttpBody.json (PyVal.dict
         [("ok", PyVal.bool true), ("image", PyVal.str (basename env.imagePath))])⟩,
       env.disk, s, ([] : List Ev)) ∧
    Ev.ocrRun ∉ (health env s).2.2.2 ∧ Ev.ocrInit ∉ (health env s).2.2.2 ∧
    Ev.loadCache ∉ (health env s).2.2.2 ∧ Ev.saveCache ∉ (health env s).2.2.2 := by
  refine ⟨rfl, ?_, ?_, ?_, ?_⟩ <;> simp [health]

/-! ## C7: the lock inventory -/

/-- Holds of an event unless it is a lock operation naming something other
than the two module-level locks. -/
def evLockOk (e : Ev) : Bool :=
  match e with
  | .acquire l | .release l => l == "cache_lock" || l == "ocr_init_lock"
  | _ => true

/-- Holds of an event unless it is a lock operation naming a lock other than
`ocr_init_lock`. -/
def evInitLockOnly (e : Ev) : Bool :=
  match e with
  | .acquire l | .release l => l == "ocr_init_lock"
  | _ => true

lemma evInitLockOnly_imp (e : Ev) (h : evInitLockOnly e = true) :
    evLockOk e = true := by
  cases e <;> simp_all [evInitLockOnly, evLockOk]

lemma get_ocr_locks (env : Env) (s : OcrState) :
    (get_ocr env s).2.2.all evInitLockOnly = true := by
  unfold get_ocr
  cases hs : s.inst with
  | some i => simp [hs]
  | none =>
      cases hp : env.paddleOk <;> cases hq : env.paddleocrOk <;>
        simp [hs, hp, hq, evInitLockOnly]

lemma attemptOcr_locks (env : Env) :
    (attemptOcr env).2.all evLockOk = true := by
  unfold attemptOcr
  cases h : env.ocrRawImg with
  | ok raw => simp [evLockOk]
  | error e => cases e <;> simp [evLockOk]

lemma missPath_locks (env : Env) (s : OcrState) (kvs : List (String × PyVal)) :
    (missPath env s kvs).trace.all evLockOk = true := by
  unfold missPath
  cases hp : probeDict kvs env.imagePath env.mtime with
  | error e => simp [evLockOk]
  | ok o =>
      cases o with
      | some v => simp [evLockOk]
      | none =>
          have hg := get_ocr_locks env s
          cases hgo : get_ocr env s with
          | mk r pr =>
          cases pr with
          | mk s1 g =>
              rw [hgo] at hg
              simp only at hg
              have hgL : g.all evLockOk = true := by
                rw [List.all_eq_true] at hg ⊢
                exact fun e he => evInitLockOnly_imp e (hg e he)
              cases r with
              | error e => simp [List.all_append, evLockOk, hgL]
              | ok i =>
                  cases ho : env.openErr with
                  | some e => simp [List.all_append, evLockOk, hgL]
                  | none =>
                      have ha := attemptOcr_locks env
                      cases hao : attemptOcr env with
                      | mk ar otr =>
                          rw [hao] at ha
                          simp only at ha
                          cases ar with
                          | error e =>
                              simp [List.all_append, evLockOk, hgL, ha]
                          | ok raw =>
                              cases hpp : parse_paddle raw with
                              | error e =>
                                  simp [hpp, List.all_append, evLockOk, hgL, ha]
                              | ok parsed =>
                                  simp [hpp, List.all_append, evLockOk, hgL, ha]

lemma run_locks (env : Env) (s : OcrState) :
    (run_ocr_cached env s).trace.all evLockOk = true := by
  unfold run_ocr_cached
  split
  · split
    · simp [evLockOk]
    · simp [evLockOk]
    · apply missPath_locks
  all_goals simp [evLockOk]

lemma index_trace (env : Env) (s : OcrState) :
    (index env s).2.2.2 = (run_ocr_cached env s).trace := by
  unfold index
  dsimp only
  split <;> rfl

lemma api_ocr_trace (env : Env) (s : OcrState) :
    (api_ocr env s).2.2.2 = (run_ocr_cached env s).trace := by
  unfold api_ocr
  dsimp only
  split <;> rfl

/-- C7 (amended): the program coordinates through exactly two advisory locks —
`ocr_init_lock`, the only lock `get_ocr` touches, held around lazy engine
initialization, and `cache_lock`, held by `run_ocr_cached` around its locked
re-check / OCR / store section — and every lock event of every route handler
names one of these two. -/
theorem locks_c7 (env : Env) (s : OcrState) :
    moduleLocks = ["cache_lock", "ocr_init_lock"] ∧
    (run_ocr_cached env s).trace.all evLockOk = true ∧
    (get_ocr env s).2.2.all evInitLockOnly = true ∧
    (index env s).2.2.2.all evLockOk = true ∧
    (image env s).2.2.2.all evLockOk = true ∧
    (api_ocr env s).2.2.2.all evLockOk = true ∧
    (health env s).2.2.2.all evLockOk = true := by
  refine ⟨rfl, run_locks env s, get_ocr_locks env s, ?_, rfl, ?_, rfl⟩
  · rw [index_trace]
    exact run_locks env s
  · rw [api_ocr_trace]
    exact run_locks env s

/-- C7 counterexample: the program has two module-level advisory locks, not
one, and a plain cache miss acquires `cache_lock` — a lock distinct from the
one around lazy initialization — so the claim "no concurrency coordination
beyond a single advisory lock, the one held around the lazy initialization"
fails on the code. -/
theorem locks_c7_counterexample :
    moduleLocks.length = 2 ∧
    Ev.acquire "cache_lock" ∈ (run_ocr_cached envReady s0).trace ∧
    Ev.acquire "ocr_init_lock" ∈ (run_ocr_cached envReady s0).trace ∧
    "cache_lock" ≠ "ocr_init_lock" := by
  refine ⟨rfl, by decide, by decide, by decide⟩

/-! ## C1: the cache protocol of run_ocr_cached -/

/-- Hit test on a loaded cache dict: the key maps to a dict entry whose stored
mtime equals the current mtime and which has an `ocr` field. -/
def hitB (kvs : List (String × PyVal)) (key : String) (mtime : Rat) : Bool :=
  match dictGet kvs key with
  | Option.some (PyVal.dict e) =>
      (match dictGet e "mtime" with
       | Option.some m => pyEqFloat m mtime
       | Option.none => false) && e.any (fun p => p.1 == "ocr")
  | _ => false

/-- Modelled from the spec words of the cache claim: the cache maps the
image's absolute path to an entry whose stored mtime equals the image file's
current modification time and which contains an `ocr` field. -/
def spec_cacheHit (env : Env) : Bool :=
  match load_cache env.disk with
  | PyVal.dict kvs => hitB kvs env.imagePath env.mtime
  | _ => false

/-- The `ocr` value of the entry stored under `key`. -/
def ocrOf (kvs : List (String × PyVal)) (key : String) : PyVal :=
  match dictGet kvs key with
  | Option.some (PyVal.dict e) => (dictGet e "ocr").getD PyVal.none
  | _ => PyVal.none

/-- The cached OCR result the spec says a hit returns. -/
def cachedOcr (env : Env) : PyVal :=
  match load_cache env.disk with
  | PyVal.dict kvs => ocrOf kvs env.imagePath
  | _ => PyVal.none

/-- The cache dict after storing the fresh entry, as saved on a successful
miss. -/
def storedCache (env : Env) (parsed : PyVal) : PyVal :=
  match load_cache env.disk with
  | PyVal.dict kvs => PyVal.dict (dictSet kvs env.imagePath (mkEntry env parsed))
  | v => v

/-- Boolean success test on a run result. -/
def isOkB : Except PyErr PyVal → Bool
  | Except.ok _ => true
  | Except.error _ => false

lemma dictGet_of_any {e : List (String × PyVal)} {k : String}
    (h : e.any (fun p => p.1 == k) = true) : ∃ w, dictGet e k = Option.some w := by
  have h2 : (e.find? (fun p => p.1 == k)).isSome = true := by
    rw [List.find?_isSome]
    rw [List.any_eq_true] at h
    exact h
  obtain ⟨pr, hpr⟩ := Option.isSome_iff_exists.mp h2
  exact ⟨pr.2, by simp [dictGet, hpr]⟩

lemma hitCheck_dict_true {e : List (String × PyVal)} {mtime : Rat} {m : PyVal}
    (hmg : dictGet e "mtime" = Option.some m) (hm : pyEqFloat m mtime = true)
    (hany : e.any (fun p => p.1 == "ocr") = true) :
    hitCheck (PyVal.dict e) mtime = Except.ok true := by
  have hne : e ≠ [] := by
    intro h0
    rw [h0] at hmg
    simp [dictGet] at hmg
  have ht : pyTruthy (PyVal.dict e) = true := by
    cases e with
    | nil => exact absurd rfl hne
    | cons a as => rfl
  unfold hitCheck
  rw [if_neg (by simp [ht])]
  simp only [pyGet, hmg, Option.getD_some]
  rw [if_neg (by simp [hm])]
  simp [hany]

lemma hitCheck_true_inv {entry : PyVal} {mtime : Rat}
    (h : hitCheck entry mtime = Except.ok true) :
    ∃ e m, entry = PyVal.dict e ∧ dictGet e "mtime" = Option.some m ∧
      pyEqFloat m mtime = true ∧ e.any (fun p => p.1 == "ocr") = true := by
  unfold hitCheck at h
  by_cases ht : pyTruthy entry = false
  · rw [if_pos ht] at h
    simp at h
  · rw [if_neg ht] at h
    cases entry with
    | dict e =>
        simp only [pyGet] at h
        cases hmg : dictGet e "mtime" with
        | none =>
            rw [hmg] at h
            simp [pyEqFloat] at h
        | some m =>
            rw [hmg] at h
            simp only [Option.getD_some] at h
            by_cases hq : pyEqFloat m mtime = false
            · rw [if_pos hq] at h
              simp at h
            · rw [if_neg hq] at h
              simp only [Bool.not_eq_false] at hq
              refine ⟨e, m, rfl, hmg, hq, ?_⟩
              simpa using h
    | none => simp [pyGet] at h
    | bool b => simp [pyGet] at h
    | int n => simp [pyGet] at h
    | float q => simp [pyGet] at h
    | str t => simp [pyGet] at h
    | list xs => simp [pyGet] at h
    | tuple xs => simp [pyGet] at h

lemma probe_of_hitB {kvs : List (String × PyVal)} {key : String} {mtime : Rat}
    (h : hitB kvs key mtime = true) :
    probeDict kvs key mtime = Except.ok (Option.some (ocrOf kvs key)) := by
  unfold hitB at h
  cases hdg : dictGet kvs key with
  | none => rw [hdg] at h; simp at h
  | some entry =>
      rw [hdg] at h
      cases entry with
      | dict e =>
          simp only [Bool.and_eq_true] at h
          obtain ⟨hm, hany⟩ := h
          cases hmg : dictGet e "mtime" with
          | none => rw [hmg] at hm; simp at hm
          | some m =>
              rw [hmg] at hm
              simp only at hm
              obtain ⟨w, hw⟩ := dictGet_of_any hany
              unfold probeDict
              rw [hdg]
              simp only [Option.getD_some]
              unfold probeEntry
              rw [hitCheck_dict_true hmg hm hany]
              simp only [pyGetKey, hw]
              unfold ocrOf
              rw [hdg]
              simp [hw]
      | none => simp at h
      | bool b => simp at h
      | int n => simp at h
      | float q => simp at h
      | str t => simp at h
      | list xs => simp at h
      | tuple xs => simp at h

lemma probe_some_inv {kvs : List (String × PyVal)} {key : String} {mtime : Rat}
    {v : PyVal} (h : probeDict kvs key mtime = Except.ok (Option.some v)) :
    hitB kvs key mtime = true ∧ v = ocrOf kvs key := by
  unfold probeDict probeEntry at h
  cases hh : hitCheck ((dictGet kvs key).getD PyVal.none) mtime with
  | error e => rw [hh] at h; simp at h
  | ok b =>
      rw [hh] at h
      cases b with
      | false => simp at h
      | true =>
          obtain ⟨e, m, hent, hmg, hq, hany⟩ := hitCheck_true_inv hh
          cases hdg : dictGet kvs key with
          | none =>
              rw [hdg] at hent
              simp at hent
          | some w =>
              rw [hdg] at hent
              simp only [Option.getD_some] at hent
              subst hent
              rw [hdg] at h
              simp only [Option.getD_some] at h
              cases hocr : dictGet e "ocr" with
              | none => simp [pyGetKey, hocr] at h
              | some w2 =>
                  simp only [pyGetKey, hocr] at h
                  simp only [Except.ok.injEq, Option.some.injEq] at h
                  constructor
                  · unfold hitB
                    rw [hdg]
                    simp [hmg, hq, hany]
                  · rw [← h]
                    unfold ocrOf
                    rw [hdg]
                    simp [hocr]

lemma spec_hit_dict {env : Env} (hhit : spec_cacheHit env = true) :
    ∃ kvs, load_cache env.disk = PyVal.dict kvs ∧
      hitB kvs env.imagePath env.mtime = true := by
  unfold spec_cacheHit at hhit
  generalize hd : load_cache env.disk = c at hhit
  cases c with
  | dict kvs => exact ⟨kvs, hd ▸ rfl, by simpa using hhit⟩
  | none => simp at hhit
  | bool b => simp at hhit
  | int n => simp at hhit
  | float q => simp at hhit
  | str t => simp at hhit
  | list xs => simp at hhit
  | tuple xs => simp at hhit

lemma load_dec (env : Env) :
    (∃ kvs, load_cache env.disk = PyVal.dict kvs) ∨
    (∀ kvs, load_cache env.disk ≠ PyVal.dict kvs) := by
  cases h : load_cache env.disk with
  | dict kvs => exact Or.inl ⟨kvs, rfl⟩
  | none => exact Or.inr fun kvs hk => PyVal.noConfusion hk
  | bool b => exact Or.inr fun kvs hk => PyVal.noConfusion hk
  | int n => exact Or.inr fun kvs hk => PyVal.noConfusion hk
  | float q => exact Or.inr fun kvs hk => PyVal.noConfusion hk
  | str t => exact Or.inr fun kvs hk => PyVal.noConfusion hk
  | list xs => exact Or.inr fun kvs hk => PyVal.noConfusion hk
  | tuple xs => exact Or.inr fun kvs hk => PyVal.noConfusion hk

lemma run_probe_err (env : Env) (s : OcrState) (kvs : List (String × PyVal))
    (e : PyErr) (hd : load_cache env.disk = PyVal.dict kvs)
    (hp : probeDict kvs env.imagePath env.mtime = Except.error e) :
    run_ocr_cached env s = ⟨Except.error e, env.disk, s, [Ev.loadCache]⟩ := by
  simp only [run_ocr_cached, hd, hp]

lemma run_probe_hit (env : Env) (s : OcrState) (kvs : List (String × PyVal))
    (v : PyVal) (hd : load_cache env.disk = PyVal.dict kvs)
    (hp : probeDict kvs env.imagePath env.mtime = Except.ok (Option.some v)) :
    run_ocr_cached env s = ⟨Except.ok v, env.disk, s, [Ev.loadCache]⟩ := by
  simp only [run_ocr_cached, hd, hp]

lemma run_probe_miss (env : Env) (s : OcrState) (kvs : List (String × PyVal))
    (hd : load_cache env.disk = PyVal.dict kvs)
    (hp : probeDict kvs env.imagePath env.mtime = Except.ok Option.none) :
    run_ocr_cached env s = missPath env s kvs := by
  simp only [run_ocr_cached, hd, hp]

lemma run_nondict (env : Env) (s : OcrState)
    (h : ∀ kvs, load_cache env.disk ≠ PyVal.dict kvs) :
    run_ocr_cached env s =
      ⟨Except.error (PyErr.attributeError "object has no attribute get"),
       env.disk, s, [Ev.loadCache]⟩ := by
  unfold run_ocr_cached
  generalize hd : load_cache env.disk = c at h ⊢
  cases c with
  | dict kvs => exact absurd rfl (h kvs)
  | none => rfl
  | bool b => rfl
  | int n => rfl
  | float q => rfl
  | str t => rfl
  | list xs => rfl
  | tuple xs => rfl

lemma attempt_run_mem (env : Env) : Ev.ocrRun ∈ (attemptOcr env).2 := by
  cases h : env.ocrRawImg with
  | ok raw => simp [attemptOcr, h]
  | error e => cases e <;> simp [attemptOcr, h]

lemma attempt_no_save (env : Env) : Ev.saveCache ∉ (attemptOcr env).2 := by
  cases h : env.ocrRawImg with
  | ok raw => simp [attemptOcr, h]
  | error e => cases e <;> simp [attemptOcr, h]

lemma get_ocr_no_save (env : Env) (s : OcrState) :
    Ev.saveCache ∉ (get_ocr env s).2.2 := by
  cases hs : s.inst with
  | some i => simp [get_ocr, hs]
  | none =>
      cases hp : env.paddleOk <;> cases hq : env.paddleocrOk <;>
        simp [get_ocr, hs, hp, hq]

lemma missPath_ok (env : Env) (s : OcrState) (kvs : List (String × PyVal))
    (hnone : probeDict kvs env.imagePath env.mtime = Except.ok Option.none) :
    ∀ v, (missPath env s kvs).res = Except.ok v →
      Ev.ocrRun ∈ (missPath env s kvs).trace ∧
      Except.bind (attemptOcr env).1 parse_paddle = Except.ok v ∧
      Ev.saveCache ∈ (missPath env s kvs).trace ∧
      (missPath env s kvs).disk =
        save_cache (PyVal.dict (dictSet kvs env.imagePath (mkEntry env v)))
          env.disk env.writeOk := by
  intro v hres
  unfold missPath at hres ⊢
  simp only [hnone] at hres ⊢
  cases hgo : get_ocr env s with
  | mk r pr =>
  cases pr with
  | mk s1 g =>
  simp only [hgo] at hres ⊢
  cases r with
  | error e => simp at hres
  | ok i =>
  cases ho : env.openErr with
  | some e =>
      simp only [ho] at hres
      simp at hres
  | none =>
  simp only [ho] at hres ⊢
  cases hao : attemptOcr env with
  | mk ar otr =>
  simp only [hao] at hres ⊢
  cases ar with
  | error e => simp at hres
  | ok raw =>
  cases hpp : parse_paddle raw with
  | error e =>
      simp only [hpp] at hres
      simp at hres
  | ok parsed =>
      simp only [hpp] at hres ⊢
      have hv : parsed = v := by simpa using hres
      subst hv
      have hot : Ev.ocrRun ∈ otr := by
        have hm := attempt_run_mem env
        rw [hao] at hm
        simpa using hm
      refine ⟨?_, ?_, ?_, ?_⟩
      · simp [List.mem_cons, List.mem_append, hot]
      · simp [Except.bind, hpp]
      · simp [List.mem_cons, List.mem_append]
      · rfl

/-- C1 (amended): `run_ocr_cached` returns the cached `ocr` value without
re-running OCR and without touching the cache file exactly when the cache maps
the image's absolute path to an entry whose stored mtime equals the current
modification time and which contains an `ocr` field; on any miss from which it
returns normally, it has run OCR, the returned value is the `parse_paddle`
normalization of the raw OCR result, and the entry
`{mtime, ocr, cached_at}` has been stored in the cache (the store going to
disk when the write succeeds) before returning. -/
theorem run_ocr_cached_c1 (env : Env) (s : OcrState) :
    (spec_cacheHit env = true →
      run_ocr_cached env s =
        ⟨Except.ok (cachedOcr env), env.disk, s, [Ev.loadCache]⟩) ∧
    (isOkB (run_ocr_cached env s).res = true →
      Ev.ocrRun ∉ (run_ocr_cached env s).trace → spec_cacheHit env = true) ∧
    (spec_cacheHit env = false →
      ∀ v, (run_ocr_cached env s).res = Except.ok v →
        Ev.ocrRun ∈ (run_ocr_cached env s).trace ∧
        Except.bind (attemptOcr env).1 parse_paddle = Except.ok v ∧
        Ev.saveCache ∈ (run_ocr_cached env s).trace ∧
        (run_ocr_cached env s).disk =
          save_cache (storedCache env v) env.disk env.writeOk) := by
  refine ⟨?_, ?_, ?_⟩
  · intro hhit
    obtain ⟨kvs, hd, hb⟩ := spec_hit_dict hhit
    have hp := probe_of_hitB hb
    have hc : cachedOcr env = ocrOf kvs env.imagePath := by
      unfold cachedOcr
      rw [hd]
    rw [run_probe_hit env s kvs (ocrOf kvs env.imagePath) hd hp, hc]
  · intro hok hno
    by_contra hmiss
    rw [Bool.not_eq_true] at hmiss
    rcases load_dec env with ⟨kvs, hd⟩ | hnd
    · have hb : hitB kvs env.imagePath env.mtime = false := by
        unfold spec_cacheHit at hmiss
        rw [hd] at hmiss
        simpa using hmiss
      cases hp : probeDict kvs env.imagePath env.mtime with
      | error e =>
          rw [run_probe_err env s kvs e hd hp] at hok
          simp [isOkB] at hok
      | ok o =>
          cases o with
          | some v =>
              have hb2 := (probe_some_inv hp).1
              rw [hb2] at hb
              exact Bool.noConfusion hb
          | none =>
              have hrun := run_probe_miss env s kvs hd hp
              rw [hrun] at hok hno
              cases hres : (missPath env s kvs).res with
              | error e =>
                  rw [hres] at hok
                  simp [isOkB] at hok
              | ok v =>
                  exact hno (missPath_ok env s kvs hp v hres).1
    · rw [run_nondict env s hnd] at hok
      simp [isOkB] at hok
  · intro hmiss v hres
    rcases load_dec env with ⟨kvs, hd⟩ | hnd
    · cases hp : probeDict kvs env.imagePath env.mtime with
      | error e =>
          rw [run_probe_err env s kvs e hd hp] at hres
          simp at hres
      | ok o =>
          cases o with
          | some w =>
              have hb := (probe_some_inv hp).1
              unfold spec_cacheHit at hmiss
              rw [hd] at hmiss
              simp [hb] at hmiss
          | none =>
              have hrun := run_probe_miss env s kvs hd hp
              rw [hrun] at hres ⊢
              have hmo := missPath_ok env s kvs hp v hres
              refine ⟨hmo.1, hmo.2.1, hmo.2.2.1, ?_⟩
              rw [hmo.2.2.2]
              unfold storedCache
              rw [hd]
    · rw [run_nondict env s hnd] at hres
      simp at hres

/-- Environment identical to `envReady` except that the `paddle` import
fails. -/
def envNoPaddle : Env := { envReady with paddleOk := false }

/-- C1 counterexample: with an empty cache — a miss — but the `paddle` import
failing, `run_ocr_cached` neither runs OCR nor stores an entry nor returns a
result: it raises.  This refutes the claim's "on any miss it runs OCR …
stores the entry … and returns that normalized result". -/
theorem run_ocr_cached_c1_counterexample :
    spec_cacheHit envNoPaddle = false ∧
    (run_ocr_cached envNoPaddle s0).res =
      Except.error (PyErr.runtimeError
        "Paddle not installed. Install paddlepaddle CPU wheel first. Error: import failed") ∧
    Ev.ocrRun ∉ (run_ocr_cached envNoPaddle s0).trace ∧
    Ev.saveCache ∉ (run_ocr_cached envNoPaddle s0).trace ∧
    (run_ocr_cached envNoPaddle s0).disk = envNoPaddle.disk :=
  ⟨rfl, rfl, by decide, by decide, rfl⟩

/-- Witness for the C1 theorem: a successful cache miss on the concrete
environment runs OCR, saves, and returns the normalization of the raw
result. -/
theorem run_ocr_cached_c1_witness :
    Ev.ocrRun ∈ (run_ocr_cached envReady s0).trace ∧
    Except.bind (attemptOcr envReady).1 parse_paddle = Except.ok (PyVal.list []) ∧
    Ev.saveCache ∈ (run_ocr_cached envReady s0).trace ∧
    (run_ocr_cached envReady s0).disk =
      save_cache (storedCache envReady (PyVal.list [])) envReady.disk
        envReady.writeOk :=
  (run_ocr_cached_c1 envReady s0).2.2 rfl (PyVal.list []) rfl

/-! ## C8: the exception path of a miss -/

lemma missPath_c8 (env : Env) (s : OcrState) (kvs : List (String × PyVal))
    (i : Nat) (s1 : OcrState) (g : List Ev) (e : PyErr)
    (hnone : probeDict kvs env.imagePath env.mtime = Except.ok Option.none)
    (hget : get_ocr env s = (Except.ok i, s1, g))
    (hopen : env.openErr = Option.none)
    (hfail : Except.bind (attemptOcr env).1 parse_paddle = Except.error e) :
    (missPath env s kvs).res = Except.error e ∧
    (missPath env s kvs).disk = env.disk ∧
    Ev.saveCache ∉ (missPath env s kvs).trace := by
  have hgs : Ev.saveCache ∉ g := by
    have hns := get_ocr_no_save env s
    rw [hget] at hns
    simpa using hns
  unfold missPath
  simp only [hnone, hget, hopen]
  cases hao : attemptOcr env with
  | mk ar otr =>
      have hos : Ev.saveCache ∉ otr := by
        have hns := attempt_no_save env
        rw [hao] at hns
        simpa using hns
      rw [hao] at hfail
      cases ar with
      | error e2 =>
          have he : e2 = e := by simpa [Except.bind] using hfail
          subst he
          refine ⟨rfl, rfl, ?_⟩
          simp [List.mem_cons, List.mem_append, hgs, hos]
      | ok raw =>
          simp only [Except.bind] at hfail
          cases hpp : parse_paddle raw with
          | ok parsed =>
              rw [hpp] at hfail
              exact absurd hfail (by simp)
          | error e2 =>
              rw [hpp] at hfail
              have he : e2 = e := by simpa using hfail
              subst he
              simp only [hpp]
              refine ⟨by trivial, by trivial, ?_⟩
              simp [List.mem_cons, List.mem_append, hgs, hos]

/-- C8: if, on a cache miss (the loaded cache is a dict and the probe finds no
fresh entry), engine initialization has succeeded, the image opened, and
running the OCR engine or normalizing its output raises exception `e`, then
`run_ocr_cached` propagates `e`, the on-disk cache file is left unchanged and
nothing is saved, and `GET /api/ocr` responds 500 with the JSON body holding
exactly the key `error` mapped to the exception message. -/
theorem api_ocr_c8 (env : Env) (s : OcrState) (kvs : List (String × PyVal))
    (i : Nat) (s1 : OcrState) (g : List Ev) (e : PyErr)
    (hd : load_cache env.disk = PyVal.dict kvs)
    (hmiss : probeDict kvs env.imagePath env.mtime = Except.ok Option.none)
    (hget : get_ocr env s = (Except.ok i, s1, g))
    (hopen : env.openErr = Option.none)
    (hfail : Except.bind (attemptOcr env).1 parse_paddle = Except.error e) :
    (run_ocr_cached env s).res = Except.error e ∧
    (run_ocr_cached env s).disk = env.disk ∧
    Ev.saveCache ∉ (run_ocr_cached env s).trace ∧
    (api_ocr env s).1 =
      ⟨500, HttpBody.json (PyVal.dict [("error", PyVal.str (pyErrStr e))])⟩ := by
  have hrun := run_probe_miss env s kvs hd hmiss
  have hm := missPath_c8 env s kvs i s1 g e hmiss hget hopen hfail
  refine ⟨?_, ?_, ?_, ?_⟩
  · rw [hrun]
    exact hm.1
  · rw [hrun]
    exact hm.2.1
  · rw [hrun]
    exact hm.2.2
  · unfold api_ocr
    dsimp only
    rw [hrun, hm.1]

/-- Environment identical to `envReady` except that the engine's `ocr` call
raises a `RuntimeError`. -/
def envOcrFail : Env :=
  { envReady with ocrRawImg := Except.error (PyErr.runtimeError "boom") }

/-- Witness for the C8 theorem: on a concrete miss whose OCR call raises, the
error propagates, nothing is stored, and the API responds 500 with only the
error message. -/
theorem api_ocr_c8_witness :
    (run_ocr_cached envOcrFail s0).res =
      Except.error (PyErr.runtimeError "boom") ∧
    (run_ocr_cached envOcrFail s0).disk = envOcrFail.disk ∧
    Ev.saveCache ∉ (run_ocr_cached envOcrFail s0).trace ∧
    (api_ocr envOcrFail s0).1 =
      ⟨500, HttpBody.json (PyVal.dict
        [("error", PyVal.str (pyErrStr (PyErr.runtimeError "boom")))])⟩ :=
  api_ocr_c8 envOcrFail s0 [] 0 ⟨Option.some 0, 1⟩
    [Ev.acquire "ocr_init_lock", Ev.ocrInit, Ev.release "ocr_init_lock"]
    (PyErr.runtimeError "boom") rfl rfl rfl rfl rfl

/-! ## C9: cache-file fault tolerance -/

/-- The fault states of the cache file: missing, unreadable, or not valid
JSON. -/
def faultyDisk : Disk → Bool
  | .absent => true
  | .unreadable => true
  | .invalid => true
  | .json _ => false

lemma probe_empty (key : String) (mtime : Rat) :
    probeDict [] key mtime = Except.ok Option.none := rfl

lemma get_ocr_update_disk (env : Env) (d : Disk) (s : OcrState) :
    get_ocr { env with disk := d } s = get_ocr env s := rfl

lemma attemptOcr_update_disk (env : Env) (d : Disk) :
    attemptOcr { env with disk := d } = attemptOcr env := rfl

lemma missPath_disk_c9 (env : Env) (d : Disk) (s : OcrState)
    (kvs : List (String × PyVal))
    (hl : load_cache d = load_cache env.disk) :
    (missPath { env with disk := d } s kvs).res = (missPath env s kvs).res ∧
    (missPath { env with disk := d } s kvs).ocrSt = (missPath env s kvs).ocrSt ∧
    (missPath { env with disk := d } s kvs).trace = (missPath env s kvs).trace ∧
    load_cache (missPath { env with disk := d } s kvs).disk =
      load_cache (missPath env s kvs).disk := by
  unfold missPath
  dsimp only
  rw [get_ocr_update_disk, attemptOcr_update_disk]
  cases hp : probeDict kvs env.imagePath env.mtime with
  | error e =>
      try simp only [hp]
      exact ⟨by trivial, by trivial, by trivial, hl⟩
  | ok o =>
      cases o with
      | some v =>
          try simp only [hp]
          exact ⟨by trivial, by trivial, by trivial, hl⟩
      | none =>
          try simp only [hp]
          cases hgo : get_ocr env s with
          | mk r pr =>
          cases pr with
          | mk s1 g =>
          try simp only [hgo]
          cases r with
          | error e => exact ⟨by trivial, by trivial, by trivial, hl⟩
          | ok i =>
              cases ho : env.openErr with
              | some e =>
                  try simp only [ho]
                  exact ⟨by trivial, by trivial, by trivial, hl⟩
              | none =>
                  try simp only [ho]
                  cases hao : attemptOcr env with
                  | mk ar otr =>
                  try simp only [hao]
                  cases ar with
                  | error e => exact ⟨by trivial, by trivial, by trivial, hl⟩
                  | ok raw =>
                      cases hpp : parse_paddle raw with
                      | error e =>
                          try simp only [hpp]
                          exact ⟨by trivial, by trivial, by trivial, hl⟩
                      | ok parsed =>
                          try simp only [hpp]
                          refine ⟨by trivial, by trivial, by trivial, ?_⟩
                          cases hw : env.writeOk with
                          | true =>
                              simp [save_cache, hw]
                              try rfl
                          | false => simp [save_cache, hw, hl]

/-- C9: cache-file faults never propagate to callers: `load_cache` yields the
empty dict for a missing, unreadable, or invalid-JSON cache file; a failed
`save_cache` write raises nothing and leaves the file as it was; and with a
faulty cache file `run_ocr_cached` behaves exactly as with an empty cache —
the same result, the same engine state, the same events, and the same
cache-file content as seen by the next load. -/
theorem cache_faults_c9 (env : Env) (s : OcrState)
    (h : faultyDisk env.disk = true) :
    load_cache Disk.absent = PyVal.dict [] ∧
    load_cache Disk.unreadable = PyVal.dict [] ∧
    load_cache Disk.invalid = PyVal.dict [] ∧
    (∀ c dk, save_cache c dk false = dk) ∧
    (run_ocr_cached env s).res =
      (run_ocr_cached { env with disk := Disk.json (PyVal.dict []) } s).res ∧
    (run_ocr_cached env s).ocrSt =
      (run_ocr_cached { env with disk := Disk.json (PyVal.dict []) } s).ocrSt ∧
    (run_ocr_cached env s).trace =
      (run_ocr_cached { env with disk := Disk.json (PyVal.dict []) } s).trace ∧
    load_cache (run_ocr_cached env s).disk =
      load_cache (run_ocr_cached { env with disk := Disk.json (PyVal.dict []) } s).disk := by
  have hload : load_cache env.disk = PyVal.dict [] := by
    cases hd : env.disk with
    | absent => rfl
    | unreadable => rfl
    | invalid => rfl
    | json v =>
        rw [hd] at h
        simp [faultyDisk] at h
  have hrun1 : run_ocr_cached env s = missPath env s [] :=
    run_probe_miss env s [] hload (probe_empty _ _)
  have hrun2 : run_ocr_cached { env with disk := Disk.json (PyVal.dict []) } s =
      missPath { env with disk := Disk.json (PyVal.dict []) } s [] :=
    run_probe_miss _ s [] rfl (probe_empty _ _)
  have hc := missPath_disk_c9 { env with disk := Disk.json (PyVal.dict []) }
    env.disk s [] hload
  refine ⟨rfl, rfl, rfl, fun c dk => rfl, ?_, ?_, ?_, ?_⟩
  · rw [hrun1, hrun2]
    exact hc.1
  · rw [hrun1, hrun2]
    exact hc.2.1
  · rw [hrun1, hrun2]
    exact hc.2.2.1
  · rw [hrun1, hrun2]
    exact hc.2.2.2

/-- Environment identical to `envReady` except that the cache file holds
invalid JSON. -/
def envFaulty : Env := { envReady with disk := Disk.invalid }

/-- Witness for the C9 theorem: with a corrupt cache file the request behaves
exactly as with an empty cache. -/
theorem cache_faults_c9_witness :
    (run_ocr_cached envFaulty s0).res =
      (run_ocr_cached { envFaulty with disk := Disk.json (PyVal.dict []) } s0).res ∧
    (run_ocr_cached envFaulty s0).ocrSt =
      (run_ocr_cached { envFaulty with disk := Disk.json (PyVal.dict []) } s0).ocrSt ∧
    (run_ocr_cached envFaulty s0).trace =
      (run_ocr_cached { envFaulty with disk := Disk.json (PyVal.dict []) } s0).trace ∧
    load_cache (run_ocr_cached envFaulty s0).disk =
      load_cache (run_ocr_cached { envFaulty with disk := Disk.json (PyVal.dict []) } s0).disk :=
  (cache_faults_c9 envFaulty s0 rfl).2.2.2.2
